import Mathlib

/-!
Shallow embedding of `DCM130.py`, a USB vendor-control-transfer client for
the Scopetek DCM130 camera (vendor 0x0547, product 0x4d33).

Bytes are modelled as `Fin 256` (the transport hands back raw bytes, each in
0..255).  The USB transport (`usb1.USBDeviceHandle._controlTransfer`) is an
external collaborator: it is modelled as an oracle function from the
transfer arguments to the contents the device writes back into the buffer.
Side effects (the transfer itself, `time.sleep`) are recorded in an event
trace.  Logging calls have no observable effect and are not modelled.
-/

/-- One source byte (0..255). -/
abbrev Byte := Fin 256

/-- Python enum `_Request` (DCM130.py lines 27-30). -/
inductive Request
  | CONTROL
  | REG_READ
  | REG_WRITE
deriving DecidableEq, Repr

/-- `_Request.value`: the `bRequest` code of each enum member. -/
def Request.value : Request → Nat
  | .CONTROL => 1
  | .REG_READ => 10
  | .REG_WRITE => 11

/-- The runtime argument of `ScopetekDevice.request`.  Python is dynamically
typed, so besides the three `_Request` members any other value can be passed;
the `else` branch at line 53 (`raise TypeError`) handles exactly those. -/
inductive RequestArg
  | member (r : Request)
  | nonMember
deriving DecidableEq, Repr

/-- Errors raised by `ScopetekDevice.request`:
  `unsupportedRequest` is `TypeError('Unknown request')` (line 54), the
  spec's `UnsupportedRequest`;
  `deviceProtocolError code` is
  `RuntimeError(f'Received error from the device: {code}')` (line 86),
  the spec's `DeviceProtocolError`. -/
inductive RequestError
  | unsupportedRequest
  | deviceProtocolError (code : Nat)
deriving DecidableEq, Repr

/-- Arguments of the `_controlTransfer` call at lines 68-76, in order:
`(request_type, request.value, value, index, buffer, ctypes.sizeof(buffer),
timeout)`.  libusb names: `bmRequestType, bRequest, wValue, wIndex, data,
length, timeout`. -/
structure TransferCall where
  request_type : Nat
  bRequest : Nat
  wValue : Nat
  wIndex : Nat
  buffer : List Byte
  length : Nat
  timeout : Nat
deriving DecidableEq, Repr

/-- Observable side effects of one `request` call: the control transfer and
the `time.sleep(0.002)` (line 77), recorded in microseconds (2000 us). -/
inductive Event
  | transfer (call : TransferCall)
  | sleep (usec : Nat)
deriving DecidableEq, Repr

/-- Lines 46-54: choose `request_type` and (re)compute `size` from the
request kind.  Returns `(request_type, bRequest, size)`; `none` models the
`raise TypeError('Unknown request')` path. -/
def encode : RequestArg → Option Nat → Option (Nat × Nat × Nat)
  | .member Request.CONTROL, _ => some (0x40, Request.CONTROL.value, 0)
  | .member Request.REG_READ, size => some (0xc0, Request.REG_READ.value, size.getD 1)
  | .member Request.REG_WRITE, size => some (0xc0, Request.REG_WRITE.value, size.getD 1)
  | .nonMember, _ => none

/-- Line 57: `buffer = bytearray(data if data else size)`.  Python
truthiness: a `None` or empty `data` falls back to a zero-filled buffer of
`size` bytes; `bytearray(n)` is `n` zero bytes. -/
def mkBuffer (data : Option (List Byte)) (size : Nat) : List Byte :=
  match data with
  | some d => if d.isEmpty then List.replicate size 0 else d
  | none => List.replicate size 0

/-- The transfer call built at lines 68-76.  `create_initialised_buffer`
keeps the bytearray's exact length (it deliberately adds no trailing NUL),
so `ctypes.sizeof(buffer)` is the buffer's length. -/
def mkCall (request_type bRequest value index : Nat) (buffer : List Byte)
    (timeout : Nat) : TransferCall :=
  ⟨request_type, bRequest, value, index, buffer, buffer.length, timeout⟩

/-- Lines 79-90: decode/validate the post-transfer buffer.  A non-empty
buffer is turned into its list of integer byte values
(`int.from_bytes(byte, 'big')` of a 1-byte string is just the byte value);
if the last value is not 0x08 the device reported an error (the `Nat` in
`Except.error` is that value), otherwise the values are returned.  An empty
buffer yields `none` ("no data", line 90). -/
def decode (buffer : List Byte) : Except Nat (Option (List Nat)) :=
  if buffer.isEmpty then Except.ok none
  else
    let data := buffer.map Fin.val
    if data.getLastD 0 ≠ 8 then Except.error (data.getLastD 0)
    else Except.ok (some data)

/-- `ScopetekDevice.request` (lines 43-90).  `transport` is the oracle for
`self._dev._controlTransfer`: given the transfer arguments it returns the
bytes the device left in the buffer.  The result pairs the returned value
(or raised error) with the trace of observable side effects. -/
def request (transport : TransferCall → List Byte) (req : RequestArg)
    (index value : Nat) (data : Option (List Byte)) (size : Option Nat)
    (timeout : Nat) : Except RequestError (Option (List Nat)) × List Event :=
  match encode req size with
  | none => (Except.error RequestError.unsupportedRequest, [])
  | some (request_type, bRequest, sz) =>
    let call := mkCall request_type bRequest value index (mkBuffer data sz) timeout
    ((decode (transport call)).mapError RequestError.deviceProtocolError,
     [Event.transfer call, Event.sleep 2000])

/-- The transfer calls appearing in an event trace. -/
def transferCallsOf (events : List Event) : List TransferCall :=
  events.filterMap fun e => match e with
    | .transfer c => some c
    | .sleep _ => none

/-- Lines 14-24, `_error`: the printed line is `'{} {}'.format(prefix, msg)`
where the prefix `ERROR` is wrapped in ANSI color codes (`'\33[91m'` /
`'\33[0m'`, ESC = 0x1b) when stdout is a TTY. -/
def errorLine (isatty : Bool) (msg : String) : String :=
  let p := if isatty then "\x1b[91m" ++ "ERROR" ++ "\x1b[0m" else "ERROR"
  p ++ " " ++ msg

/-- The hard-coded initialization sequence issued by `main`
(lines 102-145), as `(kind, index, value, size)` tuples; `data` is never
passed and `timeout` is always the default 0. -/
def initSequence : List (RequestArg × Nat × Nat × Option Nat) :=
  [ (.member .CONTROL, 0x000f, 0x0001, none),
    (.member .CONTROL, 0x000f, 0x0000, none),
    (.member .CONTROL, 0x000f, 0x0001, none),
    (.member .REG_READ, 0x0000, 0x0000, some 3),
    (.member .REG_WRITE, 0x000a, 0x8000, none),
    (.member .REG_WRITE, 0x000d, 0x0001, none),
    (.member .REG_WRITE, 0x000d, 0x0000, none),
    (.member .REG_WRITE, 0x0001, 0x0015, none),
    (.member .REG_WRITE, 0x0002, 0x0021, none),
    (.member .REG_WRITE, 0x0020, 0x0000, none),
    (.member .REG_WRITE, 0x001e, 0x8040, none),
    (.member .REG_WRITE, 0x004e, 0x0030, none),
    (.member .REG_WRITE, 0x0004, 0x07ff, none),
    (.member .REG_WRITE, 0x0003, 0x05ff, none),
    (.member .REG_WRITE, 0x002b, 0x0060, none),
    (.member .REG_WRITE, 0x002c, 0x0060, none),
    (.member .REG_WRITE, 0x002d, 0x0060, none),
    (.member .REG_WRITE, 0x002e, 0x0060, none),
    (.member .REG_WRITE, 0x000a, 0x8001, none),
    (.member .REG_WRITE, 0x0022, 0x0033, none),
    (.member .REG_WRITE, 0x0023, 0x0033, none),
    (.member .REG_WRITE, 0x0005, 0x0150, none),
    (.member .REG_WRITE, 0x000a, 0x8000, none),
    (.member .REG_WRITE, 0x0005, 0x0300, none),
    (.member .REG_READ, 0x0005, 0x0000, some 3),
    (.member .REG_READ, 0x0004, 0x0000, some 3),
    (.member .REG_READ, 0x0002, 0x0000, some 3),
    (.member .REG_WRITE, 0x0009, 0x012c, none),
    (.member .REG_WRITE, 0x0035, 0x0056, none),
    (.member .CONTROL, 0x000f, 0x0003, none) ]

/-- Run a sequence of `request` calls in order, stopping at the first
raised error (an uncaught Python exception aborts `main`).  Returns the
transfer calls actually made and the error, if any. -/
def runSeq (transport : TransferCall → List Byte) :
    List (RequestArg × Nat × Nat × Option Nat) →
    List TransferCall × Option RequestError
  | [] => ([], none)
  | (r, index, value, size) :: rest =>
    let out := request transport r index value none size 0
    let calls := transferCallsOf out.2
    match out.1 with
    | .error e => (calls, some e)
    | .ok _ =>
      let tail := runSeq transport rest
      (calls ++ tail.1, tail.2)

/-- Outcome of one run of the program. -/
structure MainResult where
  printed : List String
  exitCode : Nat
  transfers : List TransferCall
deriving DecidableEq, Repr

/-- `main` (lines 93-145): open the device by vendor/product ID; if absent,
print the `_error` line and exit with the default code 1 (line 98); if
present, run the initialization sequence.  An uncaught exception makes the
interpreter exit with code 1; otherwise the process exits 0. -/
def main_model (devicePresent : Bool) (isatty : Bool)
    (transport : TransferCall → List Byte) : MainResult :=
  if devicePresent then
    let run := runSeq transport initSequence
    ⟨[], match run.2 with | some _ => 1 | none => 0, run.1⟩
  else
    ⟨[errorLine isatty "Device not found (0x0547, 0x4d33)"], 1, []⟩

/-- `sub` occurs as a contiguous substring of `s`. -/
def strContains (s sub : String) : Prop := ∃ a b, s = a ++ sub ++ b

/-! ## Helper lemmas -/

lemma request_nonMember (transport : TransferCall → List Byte)
    (index value : Nat) (data : Option (List Byte)) (size : Option Nat)
    (timeout : Nat) :
    request transport RequestArg.nonMember index value data size timeout =
      (Except.error RequestError.unsupportedRequest, []) := rfl

lemma request_member (transport : TransferCall → List Byte) (r : Request)
    (index value : Nat) (data : Option (List Byte)) (size : Option Nat)
    (timeout : Nat) :
    ∃ rt br sz, encode (RequestArg.member r) size = some (rt, br, sz) ∧
      request transport (RequestArg.member r) index value data size timeout =
        ((decode (transport (mkCall rt br value index (mkBuffer data sz) timeout))).mapError
            RequestError.deviceProtocolError,
          [Event.transfer (mkCall rt br value index (mkBuffer data sz) timeout),
           Event.sleep 2000]) := by
  cases r <;> exact ⟨_, _, _, rfl, rfl⟩

lemma getLastD_map_val (l : List Byte) (b : Byte) (hl : l.getLast? = some b) :
    (l.map Fin.val).getLastD 0 = b.val := by
  simp [List.getLastD_eq_getLast?, List.getLast?_map, hl]

lemma decode_error_of_getLast (l : List Byte) (b : Byte)
    (hl : l.getLast? = some b) (hb : b.val ≠ 8) :
    decode l = Except.error b.val := by
  have hne : l ≠ [] := by
    intro h
    rw [h] at hl
    simp at hl
  have hD := getLastD_map_val l b hl
  simp [decode, hne, hD, hl, hb]

lemma decode_ok_of_getLast (l : List Byte) (hl : l.getLast? = some (8 : Byte)) :
    decode l = Except.ok (some (l.map Fin.val)) := by
  have hne : l ≠ [] := by
    intro h
    rw [h] at hl
    simp at hl
  have hD := getLastD_map_val l (8 : Byte) hl
  simp [decode, hne, hD, hl]
  rfl

lemma decode_ok_some_inv (l : List Byte) (xs : List Nat)
    (h : decode l = Except.ok (some xs)) :
    xs = l.map Fin.val ∧ l ≠ [] ∧ xs.getLast? = some 8 := by
  by_cases hne : l.isEmpty
  · simp [decode, hne] at h
  · rw [decode, if_neg hne] at h
    by_cases h8 : (l.map Fin.val).getLastD 0 ≠ 8
    · rw [if_pos h8] at h
      exact absurd h (by simp)
    · rw [if_neg h8] at h
      have hxs : xs = l.map Fin.val := by
        injection h with h
        injection h with h
        exact h.symm
      push_neg at h8
      have hlne : l ≠ [] := by simpa [List.isEmpty_iff] using hne
      refine ⟨hxs, hlne, ?_⟩
      obtain ⟨b, hb⟩ := Option.isSome_iff_exists.mp
        (List.getLast?_isSome.mpr hlne)
      have := getLastD_map_val l b hb
      rw [hxs, List.getLast?_map, hb]
      simp only [Option.map_some']
      rw [this] at h8
      simp [h8]

/-! ## Claims -/

/-- Claim C1: for every `request` call whose transfer yields a non-empty
response buffer, if the last byte of that buffer differs from 0x08 then the
decode step fails with `DeviceProtocolError` (Python: `RuntimeError`)
carrying exactly that offending byte value, and no result is returned, for
every buffer length >= 1. -/
theorem C1_bad_status_byte_is_protocol_error
    (transport : TransferCall → List Byte) (req : RequestArg)
    (index value : Nat) (data : Option (List Byte)) (size : Option Nat)
    (timeout : Nat) (c : TransferCall) (rest : List Event) (b : Byte)
    (hc : (request transport req index value data size timeout).2 =
      Event.transfer c :: rest)
    (hne : transport c ≠ [])
    (hlast : (transport c).getLast? = some b)
    (hb : b.val ≠ 8) :
    (request transport req index value data size timeout).1 =
      Except.error (RequestError.deviceProtocolError b.val) := by
  cases req with
  | nonMember =>
    rw [request_nonMember] at hc
    exact absurd hc (by simp)
  | member r =>
    obtain ⟨rt, br, sz, henc, heq⟩ :=
      request_member transport r index value data size timeout
    rw [heq] at hc ⊢
    simp only [List.cons.injEq, Event.transfer.injEq] at hc
    obtain ⟨hcall, -⟩ := hc
    subst hcall
    rw [decode_error_of_getLast (transport _) b hlast hb]
    rfl

/-- Witness for C1: a CONTROL request whose transfer is answered with the
single byte 5 fails with `DeviceProtocolError 5`. -/
theorem C1_witness :
    (request (fun _ => [(5 : Byte)]) (RequestArg.member Request.CONTROL)
        0 0 none none 0).1 =
      Except.error (RequestError.deviceProtocolError 5) :=
  C1_bad_status_byte_is_protocol_error (fun _ => [(5 : Byte)])
    (RequestArg.member Request.CONTROL) 0 0 none none 0
    (mkCall 0x40 1 0 0 [] 0) [Event.sleep 2000] 5 rfl (by decide) rfl
    (by decide)

/-- Claim C2: every CONTROL request is encoded with direction host-to-device
(request type byte 0x40) and computed size 0, regardless of the supplied
payload and size arguments; the transfer call in the trace carries request
type 0x40 and the buffer built from computed size 0. -/
theorem C2_control_host_to_device_size_zero
    (transport : TransferCall → List Byte) (index value : Nat)
    (data : Option (List Byte)) (size : Option Nat) (timeout : Nat) :
    encode (RequestArg.member Request.CONTROL) size =
      some (0x40, Request.CONTROL.value, 0) ∧
    (request transport (RequestArg.member Request.CONTROL) index value data
        size timeout).2 =
      [Event.transfer (mkCall 0x40 Request.CONTROL.value value index
        (mkBuffer data 0) timeout), Event.sleep 2000] :=
  ⟨rfl, rfl⟩

/-- Claim C3: REG_READ and REG_WRITE requests both use the device-to-host
vendor request type byte 0xC0; the read/write distinction is carried only
by the request code (10 for REG_READ, 11 for REG_WRITE); with no explicit
size the computed size is exactly 1. -/
theorem C3_register_encoding :
    (∀ size : Option Nat, encode (RequestArg.member Request.REG_READ) size =
      some (0xc0, 10, size.getD 1)) ∧
    (∀ size : Option Nat, encode (RequestArg.member Request.REG_WRITE) size =
      some (0xc0, 11, size.getD 1)) ∧
    encode (RequestArg.member Request.REG_READ) none = some (0xc0, 10, 1) ∧
    encode (RequestArg.member Request.REG_WRITE) none = some (0xc0, 11, 1) :=
  ⟨fun _ => rfl, fun _ => rfl, rfl, rfl⟩

/-- Claim C4: a `request` call with a kind other than the three `_Request`
members fails with `UnsupportedRequest` (Python: `TypeError`) and makes no
transport call: the event trace is empty and the result is the same for
every transport. -/
theorem C4_unknown_request_no_transfer
    (transport : TransferCall → List Byte) (index value : Nat)
    (data : Option (List Byte)) (size : Option Nat) (timeout : Nat) :
    request transport RequestArg.nonMember index value data size timeout =
      (Except.error RequestError.unsupportedRequest, []) := rfl

/-- Claim C5: a `request` call whose transfer yields an empty response
buffer returns `none` ("no data"): not an error, and distinct from an empty
byte sequence. -/
theorem C5_empty_buffer_returns_none
    (transport : TransferCall → List Byte) (req : RequestArg)
    (index value : Nat) (data : Option (List Byte)) (size : Option Nat)
    (timeout : Nat) (c : TransferCall) (rest : List Event)
    (hc : (request transport req index value data size timeout).2 =
      Event.transfer c :: rest)
    (he : transport c = []) :
    (request transport req index value data size timeout).1 =
      Except.ok none ∧
    (Except.ok none : Except RequestError (Option (List Nat))) ≠
      Except.ok (some []) := by
  constructor
  · cases req with
    | nonMember =>
      rw [request_nonMember] at hc
      exact absurd hc (by simp)
    | member r =>
      obtain ⟨rt, br, sz, henc, heq⟩ :=
        request_member transport r index value data size timeout
      rw [heq] at hc ⊢
      simp only [List.cons.injEq, Event.transfer.injEq] at hc
      obtain ⟨hcall, -⟩ := hc
      subst hcall
      rw [he]
      rfl
  · simp

/-- Witness for C5: a CONTROL request (size 0, empty buffer) answered with
the empty buffer returns `none`. -/
theorem C5_witness :
    (request (fun _ => ([] : List Byte)) (RequestArg.member Request.CONTROL)
        0x000f 0x0001 none none 0).1 = Except.ok none ∧
    (Except.ok none : Except RequestError (Option (List Nat))) ≠
      Except.ok (some []) :=
  C5_empty_buffer_returns_none (fun _ => []) (RequestArg.member Request.CONTROL)
    0x000f 0x0001 none none 0 (mkCall 0x40 1 0x0001 0x000f [] 0)
    [Event.sleep 2000] rfl rfl

/-- Counterexample to C6 as stated: the payload `some []` IS supplied, yet
the buffer passed to the transport is the zero-filled default-size buffer
`[0]`, not the supplied payload `[]` (Python truthiness at line 57 treats
an empty list like `None`). -/
theorem C6_counterexample :
    transferCallsOf ((request (fun _ => [(8 : Byte)])
        (RequestArg.member Request.REG_READ) 0 0 (some []) none 0).2) =
      [mkCall 0xc0 10 0 0 [(0 : Byte)] 0] ∧
    [(0 : Byte)] ≠ ([] : List Byte) := ⟨rfl, by decide⟩

/-- Claim C6 (amended): the buffer passed to the transport equals the
supplied payload when a non-empty payload is provided; when the payload is
absent or empty it is a zero-filled buffer of the computed size; and the
length argument always equals the allocated buffer's length. -/
theorem C6_buffer_construction
    (transport : TransferCall → List Byte) (req : RequestArg)
    (index value : Nat) (data : Option (List Byte)) (size : Option Nat)
    (timeout : Nat) (rt br sz : Nat) (c : TransferCall) (rest : List Event)
    (henc : encode req size = some (rt, br, sz))
    (hc : (request transport req index value data size timeout).2 =
      Event.transfer c :: rest) :
    c.length = c.buffer.length ∧
    (∀ d, data = some d → d ≠ [] → c.buffer = d) ∧
    ((data = none ∨ data = some []) → c.buffer = List.replicate sz 0) := by
  cases req with
  | nonMember => exact absurd henc (by simp [encode])
  | member r =>
    obtain ⟨rt', br', sz', henc', heq⟩ :=
      request_member transport r index value data size timeout
    rw [heq] at hc
    simp only [List.cons.injEq, Event.transfer.injEq] at hc
    obtain ⟨hcall, -⟩ := hc
    subst hcall
    rw [henc'] at henc
    injection henc with henc
    have hsz : sz' = sz := congrArg (fun p => p.2.2) henc
    rw [hsz]
    refine ⟨rfl, ?_, ?_⟩
    · intro d hd hdne
      subst hd
      show mkBuffer (some d) sz = d
      simp [mkBuffer, hdne]
    · rintro (rfl | rfl) <;> simp [mkBuffer, mkCall]

/-- Witness for C6 (amended), the spec's round-trip scenario: a REG_WRITE
with payload `[0x33]` at index 0x0022, value 0x0033: the buffer is the
payload `[0x33]` and the length argument is its length. -/
theorem C6_witness :
    (mkCall 0xc0 11 0x0033 0x0022 [(0x33 : Byte)] 0).length =
      (mkCall 0xc0 11 0x0033 0x0022 [(0x33 : Byte)] 0).buffer.length ∧
    (∀ d, some [(0x33 : Byte)] = some d → d ≠ [] →
      (mkCall 0xc0 11 0x0033 0x0022 [(0x33 : Byte)] 0).buffer = d) ∧
    ((some [(0x33 : Byte)] = none ∨ some [(0x33 : Byte)] = some []) →
      (mkCall 0xc0 11 0x0033 0x0022 [(0x33 : Byte)] 0).buffer =
        List.replicate 1 0) :=
  C6_buffer_construction (fun _ => [(8 : Byte)])
    (RequestArg.member Request.REG_WRITE) 0x0022 0x0033
    (some [(0x33 : Byte)]) none 0 0xc0 11 1
    (mkCall 0xc0 11 0x0033 0x0022 [(0x33 : Byte)] 0) [Event.sleep 2000]
    rfl rfl

/-- Claim C7: a `request` whose non-empty response buffer ends in the
success byte 0x08 returns the full decoded byte sequence, status byte
included. -/
theorem C7_success_returns_full_sequence
    (transport : TransferCall → List Byte) (req : RequestArg)
    (index value : Nat) (data : Option (List Byte)) (size : Option Nat)
    (timeout : Nat) (c : TransferCall) (rest : List Event)
    (hc : (request transport req index value data size timeout).2 =
      Event.transfer c :: rest)
    (hlast : (transport c).getLast? = some (8 : Byte)) :
    (request transport req index value data size timeout).1 =
      Except.ok (some ((transport c).map Fin.val)) := by
  cases req with
  | nonMember =>
    rw [request_nonMember] at hc
    exact absurd hc (by simp)
  | member r =>
    obtain ⟨rt, br, sz, henc, heq⟩ :=
      request_member transport r index value data size timeout
    rw [heq] at hc ⊢
    simp only [List.cons.injEq, Event.transfer.injEq] at hc
    obtain ⟨hcall, -⟩ := hc
    subst hcall
    rw [decode_ok_of_getLast (transport _) hlast]
    rfl

/-- Witness for C7, the spec's scenario: REG_READ at index 0x0000, value
0x0000, size 3, answered `[0x01, 0x02, 0x08]`, returns `[1, 2, 8]`. -/
theorem C7_witness :
    (request (fun _ => [(1 : Byte), 2, 8]) (RequestArg.member Request.REG_READ)
        0x0000 0x0000 none (some 3) 0).1 = Except.ok (some [1, 2, 8]) := by
  have h := C7_success_returns_full_sequence (fun _ => [(1 : Byte), 2, 8])
    (RequestArg.member Request.REG_READ) 0x0000 0x0000 none (some 3) 0
    (mkCall 0xc0 10 0 0 [0, 0, 0] 0) [Event.sleep 2000] rfl rfl
  simpa using h

/-- Claim C8: in the event trace of any `request` call, every transport
call is immediately followed by the fixed settle sleep of 2000 microseconds
(`time.sleep(0.002)`, line 77); the delay is the same constant for all
arguments and all response data. -/
theorem C8_settle_delay_follows_transfer
    (transport : TransferCall → List Byte) (req : RequestArg)
    (index value : Nat) (data : Option (List Byte)) (size : Option Nat)
    (timeout : Nat) (i : Nat) (c : TransferCall)
    (h : ((request transport req index value data size timeout).2)[i]? =
      some (Event.transfer c)) :
    ((request transport req index value data size timeout).2)[i + 1]? =
      some (Event.sleep 2000) := by
  cases req with
  | nonMember =>
    rw [request_nonMember] at h
    simp at h
  | member r =>
    obtain ⟨rt, br, sz, henc, heq⟩ :=
      request_member transport r index value data size timeout
    rw [heq] at h ⊢
    rcases i with _ | _ | n
    · rfl
    · simp at h
    · simp at h

/-- Witness for C8: a CONTROL request's trace has its transfer at position
0 followed by the 2000-microsecond sleep at position 1. -/
theorem C8_witness :
    ((request (fun _ => ([] : List Byte)) (RequestArg.member Request.CONTROL)
        0 0 none none 0).2)[0 + 1]? = some (Event.sleep 2000) :=
  C8_settle_delay_follows_transfer (fun _ => []) (RequestArg.member Request.CONTROL)
    0 0 none none 0 0 (mkCall 0x40 1 0 0 [] 0) rfl

/-- Claim C9: with no USB device at vendor 0x0547 / product 0x4d33, the
program prints one error line containing both IDs, exits with a non-zero
code, and performs zero transport calls — for any TTY state and any
transport. -/
theorem C9_device_not_found
    (isatty : Bool) (transport : TransferCall → List Byte) :
    (main_model false isatty transport).transfers = [] ∧
    (main_model false isatty transport).exitCode ≠ 0 ∧
    ∃ line, (main_model false isatty transport).printed = [line] ∧
      strContains line "0x0547" ∧ strContains line "0x4d33" := by
  refine ⟨rfl, Nat.one_ne_zero, ?_⟩
  refine ⟨errorLine isatty "Device not found (0x0547, 0x4d33)", rfl, ?_, ?_⟩
  · cases isatty
    · exact ⟨"ERROR Device not found (", ", 0x4d33)", by decide⟩
    · exact ⟨"\x1b[91mERROR\x1b[0m Device not found (", ", 0x4d33)", by decide⟩
  · cases isatty
    · exact ⟨"ERROR Device not found (0x0547, ", ")", by decide⟩
    · exact ⟨"\x1b[91mERROR\x1b[0m Device not found (0x0547, ", ")", by decide⟩

/-- Claim C10: whenever `request` returns a byte sequence rather than the
"no data" value, the sequence is non-empty, every element is in 0..255, and
its last element is 0x08. -/
theorem C10_returned_sequence_invariant
    (transport : TransferCall → List Byte) (req : RequestArg)
    (index value : Nat) (data : Option (List Byte)) (size : Option Nat)
    (timeout : Nat) (xs : List Nat)
    (h : (request transport req index value data size timeout).1 =
      Except.ok (some xs)) :
    xs ≠ [] ∧ (∀ x ∈ xs, x < 256) ∧ xs.getLast? = some 8 := by
  cases req with
  | nonMember =>
    rw [request_nonMember] at h
    exact absurd h (by simp)
  | member r =>
    obtain ⟨rt, br, sz, henc, heq⟩ :=
      request_member transport r index value data size timeout
    rw [heq] at h
    cases hd : decode (transport (mkCall rt br value index (mkBuffer data sz) timeout)) with
    | error e =>
      rw [hd] at h
      exact absurd h (by simp [Except.mapError])
    | ok v =>
      rw [hd] at h
      have hv : v = some xs := by simpa [Except.mapError] using h
      subst hv
      obtain ⟨hxs, hne, hlast⟩ := decode_ok_some_inv _ xs hd
      refine ⟨?_, ?_, hlast⟩
      · rw [hxs]
        simpa using hne
      · intro x hx
        rw [hxs] at hx
        simp only [List.mem_map] at hx
        obtain ⟨b, -, rfl⟩ := hx
        exact b.isLt

/-- Witness for C10: the sequence `[1, 2, 8]` returned in the C7 scenario
is non-empty, all elements are bytes, and it ends in 8. -/
theorem C10_witness :
    ([1, 2, 8] : List Nat) ≠ [] ∧ (∀ x ∈ ([1, 2, 8] : List Nat), x < 256) ∧
    ([1, 2, 8] : List Nat).getLast? = some 8 :=
  C10_returned_sequence_invariant (fun _ => [(1 : Byte), 2, 8])
    (RequestArg.member Request.REG_READ) 0 0 none (some 3) 0 [1, 2, 8] rfl
